import Mathlib

/-!
Verification of the event/token presentation pipeline of `open-deepsearch`
(`src/app.py` and `src/app_console.py`), as a shallow embedding in Lean.

Python values that can appear in an event payload are modelled by the mutual
inductive `PyVal` / `PyFields` / `PyList` (a dict is an insertion-ordered list
of key/value pairs, as in Python 3). Streamlit's `st.session_state` is
modelled by the explicit record `SessionState`; calls such as `st.info` or
`st.code` only render to the page and do not touch `st.session_state`, so
they are not part of the state (where a claim needs a rendered message, the
function returns the rendered strings explicitly).
-/

set_option autoImplicit false

namespace OpenDeepSearch

mutual

/-- Model of a Python value as it can occur in an event payload
(dict / list / str / int / None). -/
inductive PyVal where
  | dict : PyFields → PyVal
  | list : PyList → PyVal
  | str : String → PyVal
  | int : Int → PyVal
  | none : PyVal
  deriving DecidableEq, Repr

/-- Insertion-ordered fields of a Python dict. -/
inductive PyFields where
  | nil : PyFields
  | cons : String → PyVal → PyFields → PyFields
  deriving DecidableEq, Repr

/-- Elements of a Python list. -/
inductive PyList where
  | nil : PyList
  | cons : PyVal → PyList → PyList
  deriving DecidableEq, Repr

end

/-- Python `str(value)` for the scalar leaves that `flatten_event_data`
stringifies (`str` on dict/list never reaches this point in the code paths we
model, so those cases are unreachable defaults). -/
def pyStr : PyVal → String
  | .str s => s
  | .int n => toString n
  | .none => "None"
  | .dict _ => ""
  | .list _ => ""

/-- Helper for `splitlines`: split a non-empty character sequence at `'\n'`,
accumulating the current line in `acc`; a trailing newline produces no extra
empty line. -/
def splitlinesFrom (acc : List Char) : List Char → List String
  | [] => [String.mk acc.reverse]
  | c :: rest =>
    if c = '\n' then
      String.mk acc.reverse :: (match rest with | [] => [] | _ => splitlinesFrom [] rest)
    else
      splitlinesFrom (c :: acc) rest

/-- Python `str.splitlines()` restricted to `"\n"` separators:
`"" ↦ []`, `"a\nb" ↦ ["a","b"]`, a trailing newline produces no extra
empty line (`"a\n" ↦ ["a"]`). -/
def splitlines (s : String) : List String :=
  match s.toList with
  | [] => []
  | cs => splitlinesFrom [] cs

/-- Python `" " * indent`. -/
def spacer (indent : Nat) : String :=
  String.mk (List.replicate indent ' ')

/-- The `f"◈ {key} → "` key prefix used by `flatten_event_data`. -/
def keyArrow (key : String) : String :=
  "◈ " ++ key ++ " → "

mutual

/-- `flatten_event_data` from `src/app.py` lines 21-50: recursively flatten
event data (dicts and lists) into a list of formatted lines. -/
def flatten_event_data : PyVal → Nat → List String
  | .dict entries, indent => flattenDictEntries entries indent
  | .list items, indent => flattenListItems items indent
  | d, indent => (splitlines (pyStr d)).map (fun subline => spacer indent ++ subline)

/-- The `for key, value in data.items()` loop of `flatten_event_data`. -/
def flattenDictEntries : PyFields → Nat → List String
  | .nil, _ => []
  | .cons key value rest, indent =>
    (match value with
      | .dict es => (spacer indent ++ keyArrow key) :: flatten_event_data (.dict es) (indent + 4)
      | .list is => (spacer indent ++ keyArrow key) :: flatten_event_data (.list is) (indent + 4)
      | v =>
        (splitlines (pyStr v)).map (fun subline => spacer indent ++ keyArrow key ++ subline))
    ++ flattenDictEntries rest indent

/-- The `for item in data` loop of `flatten_event_data`. -/
def flattenListItems : PyList → Nat → List String
  | .nil, _ => []
  | .cons item rest, indent =>
    (match item with
      | .dict es => (spacer indent ++ "•") :: flatten_event_data (.dict es) (indent + 4)
      | .list is => (spacer indent ++ "•") :: flatten_event_data (.list is) (indent + 4)
      | v =>
        (splitlines (pyStr v)).map (fun subline => spacer indent ++ "• " ++ subline))
    ++ flattenListItems rest indent

end

/-- Python `str.ljust(width)`: pad with spaces on the right up to `width`. -/
def ljust (s : String) (width : Nat) : String :=
  s ++ String.mk (List.replicate (width - s.length) ' ')

/-- Python `"═" * n`. -/
def eqSigns (n : Nat) : String :=
  String.mk (List.replicate n '═')

/-- Python `"\n".join(lines)`. -/
def join_lines : List String → String
  | [] => ""
  | [line] => line
  | line :: rest => line ++ "\n" ++ join_lines rest

/-- Python `len(d)` on a dict. -/
def PyFields.length : PyFields → Nat
  | .nil => 0
  | .cons _ _ rest => rest.length + 1

/-- Truthiness of a Python dict: `{}` is falsy. -/
def PyFields.isEmpty : PyFields → Bool
  | .nil => true
  | .cons _ _ _ => false

/-- Python `d[k] = v` on a dict: replace the value in place if the key is
present (keeping insertion order), else append the new pair at the end. -/
def PyFields.setKey : PyFields → String → PyVal → PyFields
  | .nil, k, v => .cons k v .nil
  | .cons k' v' rest, k, v =>
    if k' = k then .cons k' v rest else .cons k' v' (rest.setKey k v)

/-- Python `d.update(extra)`: assign each pair of `extra`, in order, into `d`. -/
def PyFields.update (d : PyFields) : PyFields → PyFields
  | .nil => d
  | .cons k v rest => (d.setKey k v).update rest

/-- Python `d.get(k)` (first matching key; Python dict keys are unique). -/
def PyFields.getKey : PyFields → String → Option PyVal
  | .nil, _ => Option.none
  | .cons k' v rest, k => if k' = k then Option.some v else rest.getKey k

/-- The `header` local of `format_event_box` (`f"🎯 {event}"`). -/
def box_header (event : String) : String :=
  "🎯 " ++ event

/-- The `content_lines` local of `format_event_box`: `if data:` is false for
both `None` and an empty dict, giving the "no event data" placeholder. -/
def box_content_lines (data : Option PyFields) : List String :=
  match data with
  | Option.some d => if d.isEmpty then ["ⓘ No event data"] else flatten_event_data (.dict d) 0
  | Option.none => ["ⓘ No event data"]

/-- The `content_width` local of `format_event_box`:
`max(len(line) for line in [header] + content_lines)` (the list is non-empty
and lengths are non-negative, so a fold of `max` from `0` is the same). -/
def box_content_width (event : String) (data : Option PyFields) : Nat :=
  ((box_header event :: box_content_lines data).map String.length).foldl max 0

/-- The `top_border` local of `format_event_box`. `border_total` equals
`content_width - len(header) ≥ 0` (the header is one of the measured lines),
so Nat subtraction agrees with Python int subtraction here. -/
def box_top_border (event : String) (data : Option PyFields) : String :=
  let header_text := " " ++ box_header event ++ " "
  let border_total := box_content_width event data + 4 - 2 - header_text.length
  "╔" ++ eqSigns (border_total / 2) ++ header_text
    ++ eqSigns (border_total - border_total / 2) ++ "╗"

/-- The `body_lines` local of `format_event_box`: each content line padded to
`content_width` between `║  ` and `  ║`. -/
def box_body_lines (event : String) (data : Option PyFields) : List String :=
  (box_content_lines data).map
    (fun line => "║  " ++ ljust line (box_content_width event data) ++ "  ║")

/-- The `item_count` local of `format_event_box`
(`len(data) if data and isinstance(data, dict) else 0`). -/
def box_item_count (data : Option PyFields) : Nat :=
  match data with
  | Option.some d => if d.isEmpty then 0 else d.length
  | Option.none => 0

/-- The `bottom_border` local of `format_event_box`. In Python
`border_total_bottom` can be negative, in which case both border pieces are
empty strings; Nat subtraction truncates to `0` and produces the same
(empty) pieces. -/
def box_bottom_border (event : String) (data : Option PyFields) : String :=
  let items_text := " Items: " ++ toString (box_item_count data) ++ " "
  let border_total := box_content_width event data + 4 - 2 - items_text.length
  "╚" ++ eqSigns (border_total / 2) ++ items_text
    ++ eqSigns (border_total - border_total / 2) ++ "╝"

/-- The lines of the box built by `format_event_box`
(`src/app.py` lines 52-103): top border, padded body lines, bottom border. -/
def format_event_box_lines (event : String) (data : Option PyFields) : List String :=
  box_top_border event data :: box_body_lines event data ++ [box_bottom_border event data]

/-- `format_event_box` from `src/app.py` lines 52-103: generate a formatted
string with Unicode box borders representing the event. -/
def format_event_box (event : String) (data : Option PyFields) : String :=
  join_lines (format_event_box_lines event data)

/-- The part of Streamlit's `st.session_state` this application uses:
the two event logs and the streaming buffer. A key that was never assigned
is modelled by `[]` / `Option.none`. -/
structure SessionState where
  event_log : List String
  minimal_event_log : List String
  stream_response : Option String
  deriving DecidableEq, Repr

/-- A fresh session: no log entries, no streaming buffer. -/
def SessionState.empty : SessionState :=
  ⟨[], [], Option.none⟩

/-- The `event_data` local of `log_event` (`src/app.py` lines 129-132):
`{"message": message}` updated with `extra_data` when the latter is truthy. -/
def log_event_data (message : String) (extra_data : Option PyFields) : PyFields :=
  let base := PyFields.cons "message" (.str message) .nil
  match extra_data with
  | Option.some ed => if ed.isEmpty then base else base.update ed
  | Option.none => base

/-- The `box_text` local of `log_event` (`src/app.py` line 135). -/
def log_event_box (message event_type : String) (extra_data : Option PyFields) : String :=
  format_event_box (message ++ " (" ++ event_type ++ ")")
    (Option.some (log_event_data message extra_data))

/-- The `minimal_text` local of `log_event` (`src/app.py` line 142); `now` is
the formatted `datetime.now()` timestamp, passed in explicitly. -/
def log_event_minimal (now message event_type : String) : String :=
  now ++ " - " ++ message ++ " (" ++ event_type ++ ")"

/-- `log_event` from `src/app.py` lines 125-148: append one formatted box to
the full event log and one timestamped line to the minimal log.
(`update_event_logs` only re-renders `st.session_state` to the page and does
not change it.) -/
def log_event (now message event_type : String) (extra_data : Option PyFields)
    (s : SessionState) : SessionState :=
  { s with
    event_log := s.event_log ++ [log_event_box message event_type extra_data],
    minimal_event_log :=
      s.minimal_event_log ++ [log_event_minimal now message event_type] }

/-- `track_events` from `src/app.py` lines 165-185: an if/elif chain over five
event names, each branch rendering a transient `st.info`/`st.success`/
`st.error` banner (display only, not session state; the
`data.get("tool_name", "Unknown tool") if data else "Unknown tool"` lookup
feeding those banners cannot raise) and calling `log_event`; the chain has no
else branch, so any other event name does nothing. -/
def track_events (now event : String) (data : Option PyFields)
    (s : SessionState) : SessionState :=
  if event = "task_think_start" then log_event now "task_think_start" "thinking" data s
  else if event = "tool_execution_start" then log_event now "tool_execution_start" "info" data s
  else if event = "task_think_end" then log_event now "task_think_end" "success" data s
  else if event = "tool_execution_end" then log_event now "tool_execution_end" "success" data s
  else if event = "error_max_iterations_reached" then
    log_event now "error_max_iterations_reached" "error" data s
  else s

/-- The five event names `track_events` has a branch for. -/
def recognized_track_event (event : String) : Bool :=
  event == "task_think_start" || event == "tool_execution_start" ||
    event == "task_think_end" || event == "tool_execution_end" ||
    event == "error_max_iterations_reached"

/-- The `event_type` string each recognized branch of `track_events` passes
to `log_event`. -/
def track_event_type (event : String) : String :=
  if event = "task_think_start" then "thinking"
  else if event = "tool_execution_start" then "info"
  else if event = "task_think_end" then "success"
  else if event = "tool_execution_end" then "success"
  else if event = "error_max_iterations_reached" then "error"
  else ""

/-- The event names `initialize_agent` (`src/app.py` lines 204-233) registers
`track_events` for. -/
def registered_agent_events : List String :=
  ["task_complete", "task_think_start", "task_think_end", "tool_execution_start",
   "tool_execution_end", "error_max_iterations_reached", "memory_full",
   "memory_compacted", "memory_summary"]

/-- Truthiness of an `Optional[str]`: `None` and `""` are falsy. -/
def opt_str_truthy : Option String → Bool
  | Option.some s => s != ""
  | Option.none => false

/-- `handle_stream_chunk` from `src/app.py` lines 153-163: when the event is
`"stream_chunk"` and the fragment truthy, create the buffer as `""` if absent
and append the fragment (the `st.empty`/`st.code` container is display only). -/
def handle_stream_chunk (event : String) (data : Option String)
    (s : SessionState) : SessionState :=
  if (event == "stream_chunk") && opt_str_truthy data then
    { s with stream_response := Option.some ((s.stream_response.getD "") ++ data.getD "") }
  else s

/-- Feed a sequence of fragments to `handle_stream_chunk` under the
`"stream_chunk"` event, in order. -/
def run_stream_chunks (fragments : List String) (s : SessionState) : SessionState :=
  fragments.foldl (fun st f => handle_stream_chunk "stream_chunk" (Option.some f) st) s

/-- Concatenation of fragments in call order with no separator (the buffer
value the spec predicts). -/
def concat_fragments : List String → String
  | [] => ""
  | f :: rest => f ++ concat_fragments rest

/-- Feed a sequence of `(now, event, payload)` calls to `track_events`,
in order. -/
def run_track_events (calls : List (String × String × Option PyFields))
    (s : SessionState) : SessionState :=
  calls.foldl (fun st c => track_events c.1 c.2.1 c.2.2 st) s

/-- Feed a sequence of `(now, message, event_type, extra_data)` calls to
`log_event`, in order. -/
def run_log_events (calls : List (String × String × String × Option PyFields))
    (s : SessionState) : SessionState :=
  calls.foldl (fun st c => log_event c.1 c.2.1 c.2.2.1 c.2.2.2 st) s

/-- The `try`/`except` block of `deep_search` around its single
`agent.solve_task(research_task)` call site (`src/app.py` lines 287-297).
The external solver is an oracle given as the list of outcomes successive
invocations would produce (an exception is `Except.error` carrying `str(e)`);
the code performs exactly one invocation, so only the head is consulted.
Returns the pair `deep_search` returns, the updated session state, and the
banners rendered to the page (`status.update` and `st.error`). -/
def deep_search_solve_phase (now results_dir : String)
    (solver_outcomes : List (Except String String)) (s : SessionState) :
    Option ((String × String) × SessionState × List String) :=
  match solver_outcomes with
  | [] => Option.none
  | Except.ok result :: _ =>
    Option.some ((result, results_dir),
      log_event now "research_completed" "success"
        (Option.some (.cons "results_dir" (.str results_dir) .nil)) s,
      ["status: 🎉 Research completed!"])
  | Except.error e :: _ =>
    Option.some ((e, results_dir),
      log_event now "research_failed" "error"
        (Option.some (.cons "error" (.str e) .nil)) s,
      ["status: ❌ Research failed",
       "error: An error occurred during research: " ++ e])

/-- `MAX_ITERATIONS` from `src/app_console.py` line 27. -/
def MAX_ITERATIONS : Nat := 10

/-- `output_directory` from `src/app_console.py` line 86. -/
def output_directory : String := "./results"

/-- Python `os.environ.get(key)` over an explicit environment. -/
def os_environ_get (env : List (String × String)) (key : String) : Option String :=
  (env.find? (fun p => p.1 = key)).map (fun p => p.2)

/-- Truthiness of `os.environ.get(...)`: absent or empty is falsy. -/
def env_truthy : Option String → Bool
  | Option.some v => v != ""
  | Option.none => false

/-- The API-key check of `src/app_console.py` lines 33-34:
`if not os.environ.get("OPENROUTER_API_KEY"): raise ValueError(...)`. -/
def console_api_key_check (env : List (String × String)) : Except String Unit :=
  if env_truthy (os_environ_get env "OPENROUTER_API_KEY") then Except.ok ()
  else Except.error "OPENROUTER_API_KEY environment variable is not set"

/-- Fixed text of the console `task_prompt` template before the subject. -/
def task_prompt_part1 : String :=
  "\nMISSION: Execute comprehensive multi-source research analysis on this subject: "

/-- Fixed text of the console `task_prompt` template between the subject and
the iteration budget. -/
def task_prompt_part2 : String :=
  "\n\nYOU MUST COMPLETE THE SEARCH IN LESS THAN "

/-- Fixed text of the console `task_prompt` template between the iteration
budget and the output directory. -/
def task_prompt_part3 : String :=
  " ITERATIONS.\n\n- Language: Primary English, include significant non-English sources if relevant\n\n1. SEARCH About the subject \n\n- step1: Use a search tool to find information related to the subject\n- step2: Once you find some result from search, choose which one to read to get a better understanding of the subject\n- step3: Repeat the search if needed, until you have a clear understanding of the subject -> got to step1\n\n2. ANALYSIS / SYNTHESIS REQUIREMENTS:\n\n- Cross-reference findings\n- Highlight consensus vs. controversy\n- Quantify confidence levels for major claims\n- Identify knowledge gaps\n- Note emerging trends\n- Compare geographical/cultural perspectives\n\n3. FINAL REPORT GENERATION:\n\nWrite a final report in "

/-- Fixed text of the console `task_prompt` template after the output
directory. -/
def task_prompt_part4 : String :=
  "/:\n\n## Executive Summary\n\n- Key findings and implications\n- Confidence assessment\n- Critical knowledge gaps\n\n## Methodology\n- Search strategy\n- Source selection criteria\n- Analysis framework\n- Limitations\n\n## Findings\n- Major themes\n- Supporting evidence\n- Contrasting views\n- Statistical analysis\n- Trend analysis\n\n## Source Analysis\n- Credibility assessment\n- Bias evaluation\n- Methodology review\n\n## Recommendations\n- Research gaps to address\n- Suggested follow-up studies\n- Practical applications\n\n## Citations\n- Full bibliography\n- Citation metrics\n- Source credibility scores\n\n## Minimum length of the final report: at least 2000 words\n\nFormat all content using GitHub-flavored markdown with proper heading hierarchy, code blocks, tables, and emphasis formatting.\n"

/-- `task_prompt` from `src/app_console.py` lines 91-154: the f-string
template with the subject, the iteration budget, and the output directory
interpolated. -/
def task_prompt (subject : String) (out_dir : String) (max_iterations : Nat) : String :=
  task_prompt_part1 ++ subject ++ task_prompt_part2 ++ toString max_iterations
    ++ task_prompt_part3 ++ out_dir ++ task_prompt_part4

/-- The top-level flow of `src/app_console.py`: the API-key check (lines
33-34) executes at import time, before `input()` (line 88) and before the
prompt is built, so on a missing/empty key the script halts with the
`ValueError` and the result does not depend on the subject. -/
def console_script (env : List (String × String)) (subject : String) :
    Except String String :=
  match console_api_key_check env with
  | Except.error e => Except.error e
  | Except.ok _ => Except.ok (task_prompt subject output_directory MAX_ITERATIONS)

/-- Startup of `main` in `src/app.py` lines 333-363: it renders the title and
tagline and proceeds to the query form. `src/app.py` never imports `os` nor
reads any environment variable, so startup succeeds whatever the environment
contains. -/
def streamlit_main_startup (_env : List (String × String)) :
    Except String (List String) :=
  Except.ok ["title: 🔍 Deep Search Agent",
             "markdown: Powered by QuantaLogic Research Framework"]

/-- Modelled from the spec: parse `report_NNN.md` (three digits) to `NNN`.
The report filename allocator described in spec sections 3 and 8 is not in
the files under `src/`; this and `next_report_name` follow the spec's words. -/
def parse_report_num (name : String) : Option Nat :=
  match name.toList with
  | 'r' :: 'e' :: 'p' :: 'o' :: 'r' :: 't' :: '_' :: d1 :: d2 :: d3 :: '.' :: 'm' :: 'd' :: [] =>
    if d1.isDigit && d2.isDigit && d3.isDigit then
      Option.some ((d1.toNat - 48) * 100 + (d2.toNat - 48) * 10 + (d3.toNat - 48))
    else Option.none
  | _ => Option.none

/-- Modelled from the spec: zero-pad a number to three digits. -/
def pad3 (n : Nat) : String :=
  let s := toString n
  String.mk (List.replicate (3 - s.length) '0') ++ s

/-- Modelled from the spec: the next report filename is `report_NNN.md` with
`NNN` three-digit zero-padded and equal to 1 + the maximum existing `NNN`
among the given filenames, defaulting to 1 if none parse. -/
def next_report_name (existing : List String) : String :=
  "report_" ++ pad3 ((existing.filterMap parse_report_num).foldl max 0 + 1) ++ ".md"

/-- Python `str.strip()`: drop leading and trailing whitespace. The form
handler of `src/app.py` (line 348) only proceeds when `query.strip()` is
truthy, i.e. non-empty. -/
def py_strip (s : String) : String :=
  String.mk (((s.toList.dropWhile Char.isWhitespace).reverse.dropWhile
    Char.isWhitespace).reverse)

/-- The string `small` occurs verbatim as a substring of `big`. -/
def contains_sub (big small : String) : Prop :=
  ∃ pre post, big = pre ++ small ++ post

/-- Joining a list of at least two lines starts with the first line and a
newline. -/
theorem join_lines_cons_of_ne_nil (x : String) (l : List String) (h : l ≠ []) :
    join_lines (x :: l) = x ++ "\n" ++ join_lines l := by
  cases l with
  | nil => exact absurd rfl h
  | cons y ys => rfl

/-- `track_events` is `log_event` with the branch's `event_type` on the five
recognized names and the identity otherwise. -/
theorem track_events_eq_ite (now event : String) (data : Option PyFields)
    (s : SessionState) :
    track_events now event data s =
      if recognized_track_event event then
        log_event now event (track_event_type event) data s
      else s := by
  unfold track_events recognized_track_event track_event_type
  split_ifs <;> simp_all

/-- `log_event` appends exactly one box to the full log. -/
theorem log_event_event_log (now message event_type : String)
    (extra_data : Option PyFields) (s : SessionState) :
    (log_event now message event_type extra_data s).event_log =
      s.event_log ++ [log_event_box message event_type extra_data] := rfl

/-- `log_event` appends exactly one line to the minimal log. -/
theorem log_event_minimal_log (now message event_type : String)
    (extra_data : Option PyFields) (s : SessionState) :
    (log_event now message event_type extra_data s).minimal_event_log =
      s.minimal_event_log ++ [log_event_minimal now message event_type] := rfl

/-- The full event log after a sequence of `track_events` calls: the previous
log followed by one box per call with a recognized name, in call order. -/
theorem run_track_events_event_log (calls : List (String × String × Option PyFields))
    (s : SessionState) :
    (run_track_events calls s).event_log =
      s.event_log ++
        (calls.filter (fun c => recognized_track_event c.2.1)).map
          (fun c => log_event_box c.2.1 (track_event_type c.2.1) c.2.2) := by
  induction calls generalizing s with
  | nil => simp [run_track_events]
  | cons c rest ih =>
    have step : run_track_events (c :: rest) s =
        run_track_events rest (track_events c.1 c.2.1 c.2.2 s) := rfl
    rw [step, ih, track_events_eq_ite]
    by_cases h : recognized_track_event c.2.1
    · simp [h, log_event_event_log, List.filter_cons]
    · simp [h, List.filter_cons]

/-- The full event log after a sequence of `log_event` calls: one box per
call, in call order. -/
theorem run_log_events_event_log
    (calls : List (String × String × String × Option PyFields)) (s : SessionState) :
    (run_log_events calls s).event_log =
      s.event_log ++ calls.map (fun c => log_event_box c.2.1 c.2.2.1 c.2.2.2) := by
  induction calls generalizing s with
  | nil => simp [run_log_events]
  | cons c rest ih =>
    have step : run_log_events (c :: rest) s =
        run_log_events rest (log_event c.1 c.2.1 c.2.2.1 c.2.2.2 s) := rfl
    rw [step, ih, log_event_event_log]
    simp

/-- The minimal event log after a sequence of `log_event` calls: one
timestamped line per call, in call order. -/
theorem run_log_events_minimal_log
    (calls : List (String × String × String × Option PyFields)) (s : SessionState) :
    (run_log_events calls s).minimal_event_log =
      s.minimal_event_log ++ calls.map (fun c => log_event_minimal c.1 c.2.1 c.2.2.1) := by
  induction calls generalizing s with
  | nil => simp [run_log_events]
  | cons c rest ih =>
    have step : run_log_events (c :: rest) s =
        run_log_events rest (log_event c.1 c.2.1 c.2.2.1 c.2.2.2 s) := rfl
    rw [step, ih, log_event_minimal_log]
    simp

/-- One `handle_stream_chunk` step extends the buffer (read as a string, an
absent buffer reading as `""`) by exactly the fragment. -/
theorem handle_stream_chunk_getD (f : String) (s : SessionState) :
    (handle_stream_chunk "stream_chunk" (Option.some f) s).stream_response.getD "" =
      s.stream_response.getD "" ++ f := by
  unfold handle_stream_chunk opt_str_truthy
  by_cases h : f = ""
  · simp [h]
  · simp [h]

/-- After feeding any fragment sequence, the buffer (absent reading as `""`)
is the previous buffer followed by the concatenation of the fragments. -/
theorem run_stream_chunks_getD (fragments : List String) (s : SessionState) :
    (run_stream_chunks fragments s).stream_response.getD "" =
      s.stream_response.getD "" ++ concat_fragments fragments := by
  induction fragments generalizing s with
  | nil => simp [run_stream_chunks, concat_fragments]
  | cons f rest ih =>
    have step : run_stream_chunks (f :: rest) s =
        run_stream_chunks rest (handle_stream_chunk "stream_chunk" (Option.some f) s) := rfl
    rw [step, ih, handle_stream_chunk_getD, concat_fragments]
    simp [String.append_assoc]

/-- Every box produced by `format_event_box` contains the event name verbatim
(inside the top border). -/
theorem format_event_box_contains_event (event : String) (data : Option PyFields) :
    contains_sub (format_event_box event data) event := by
  refine ⟨"╔" ++ eqSigns ((box_content_width event data + 4 - 2 -
      (" " ++ box_header event ++ " ").length) / 2) ++ " " ++ "🎯 ",
    " " ++ eqSigns ((box_content_width event data + 4 - 2 -
      (" " ++ box_header event ++ " ").length) -
      (box_content_width event data + 4 - 2 -
        (" " ++ box_header event ++ " ").length) / 2) ++ "╗" ++ "\n" ++
      join_lines (box_body_lines event data ++ [box_bottom_border event data]), ?_⟩
  rw [format_event_box, format_event_box_lines, List.cons_append,
    join_lines_cons_of_ne_nil (box_top_border event data)
      (box_body_lines event data ++ [box_bottom_border event data]) (by simp)]
  simp only [box_top_border, box_header, String.append_assoc, String.length_append]

/-- `log_event_box` contains `message (event_type)` verbatim. -/
theorem log_event_box_contains (message event_type : String)
    (extra_data : Option PyFields) :
    contains_sub (log_event_box message event_type extra_data)
      (message ++ " (" ++ event_type ++ ")") :=
  format_event_box_contains_event (message ++ " (" ++ event_type ++ ")") _

/-- `log_event_minimal` contains `message (event_type)` verbatim. -/
theorem log_event_minimal_contains (now message event_type : String) :
    contains_sub (log_event_minimal now message event_type)
      (message ++ " (" ++ event_type ++ ")") := by
  refine ⟨now ++ " - ", "", ?_⟩
  simp [log_event_minimal, String.append_assoc]

/-- C1 (amended): `track_events` appends exactly one generically formatted
log entry for each of the five recognized event names, and appends nothing
for every event name outside that set, whatever the payload — the if/elif
chain has no fallback branch, so unknown names are dropped, not rendered. -/
theorem track_events_appends_only_recognized (now event : String)
    (data : Option PyFields) (s : SessionState) :
    (track_events now event data s).event_log =
      if recognized_track_event event then
        s.event_log ++ [log_event_box event (track_event_type event) data]
      else s.event_log := by
  rw [track_events_eq_ite]
  by_cases h : recognized_track_event event <;> simp [h, log_event_event_log]

/-- C1 counterexample: for the event name `task_complete` — outside the
recognized set even though `initialize_agent` registers `track_events` for
it — no log entry is appended, while a recognized name with the same payload
appends one; unknown names are therefore rendered differently. -/
theorem track_events_task_complete_not_rendered :
    (track_events "12:00:00" "task_complete"
        (Option.some (.cons "result" (.str "done") .nil))
        SessionState.empty).event_log = [] ∧
    "task_complete" ∈ registered_agent_events ∧
    (track_events "12:00:00" "task_think_start"
        (Option.some (.cons "result" (.str "done") .nil))
        SessionState.empty).event_log.length = 1 :=
  ⟨by decide, by decide, by decide⟩

/-- C2 (amended): after any sequence of `(now, event, payload)` calls to
`track_events`, the entries appended to the event log are exactly one per
call whose event name is among the five recognized names, in call order; in
particular the number of appended entries equals the number of recognized
calls, not the number of calls. -/
theorem run_track_events_entries_filtered_in_order
    (calls : List (String × String × Option PyFields)) (s : SessionState) :
    (run_track_events calls s).event_log =
      s.event_log ++
        (calls.filter (fun c => recognized_track_event c.2.1)).map
          (fun c => log_event_box c.2.1 (track_event_type c.2.1) c.2.2) ∧
    (run_track_events calls s).event_log.length =
      s.event_log.length +
        (calls.filter (fun c => recognized_track_event c.2.1)).length := by
  refine ⟨run_track_events_event_log calls s, ?_⟩
  rw [run_track_events_event_log calls s]
  simp

/-- C2 counterexample: one call with the delivered event name `task_complete`
appends zero entries, so the number of log entries differs from the number of
calls. -/
theorem run_track_events_count_mismatch :
    (run_track_events
        ([("12:00:00", "task_complete", Option.none)] :
          List (String × String × Option PyFields))
        SessionState.empty).event_log.length = 0 ∧
    ([("12:00:00", "task_complete", Option.none)] :
        List (String × String × Option PyFields)).length = 1 :=
  ⟨by decide, by decide⟩

/-- C3: for the payload `{"a": {"b": 1}, "c": [1, 2]}` the flattened lines
contain a distinguishable representation of the nested key `b` and of the
list items at positions 0 and 1 (distinct lines, position 0 before
position 1); and for every dict entry whose value is a (multi-line) string,
each source line of the string becomes one output line prefixed with the
key context. -/
theorem flatten_event_data_nested_payload_and_multiline :
    flatten_event_data
        (.dict (.cons "a" (.dict (.cons "b" (.int 1) .nil))
          (.cons "c" (.list (.cons (.int 1) (.cons (.int 2) .nil))) .nil))) 0 =
      ["◈ a → ", "    ◈ b → 1", "◈ c → ", "    • 1", "    • 2"] ∧
    "    ◈ b → 1" ∈
      flatten_event_data
        (.dict (.cons "a" (.dict (.cons "b" (.int 1) .nil))
          (.cons "c" (.list (.cons (.int 1) (.cons (.int 2) .nil))) .nil))) 0 ∧
    (flatten_event_data
        (.dict (.cons "a" (.dict (.cons "b" (.int 1) .nil))
          (.cons "c" (.list (.cons (.int 1) (.cons (.int 2) .nil))) .nil))) 0)[3]? =
      Option.some "    • 1" ∧
    (flatten_event_data
        (.dict (.cons "a" (.dict (.cons "b" (.int 1) .nil))
          (.cons "c" (.list (.cons (.int 1) (.cons (.int 2) .nil))) .nil))) 0)[4]? =
      Option.some "    • 2" ∧
    ("    • 1" : String) ≠ "    • 2" ∧
    (∀ (key s : String) (rest : PyFields) (indent : Nat),
      flattenDictEntries (.cons key (.str s) rest) indent =
        (splitlines s).map (fun subline => spacer indent ++ keyArrow key ++ subline)
          ++ flattenDictEntries rest indent) :=
  ⟨by decide, by decide, by decide, by decide, by decide,
   fun _ _ _ _ => rfl⟩

/-- C4: feeding any fragment sequence to `handle_stream_chunk` under the
`stream_chunk` event yields a buffer equal to the previous buffer followed by
the concatenation of the fragments in call order with no separator; in
particular `["Hel", "lo, ", "world"]` yields `"Hello, world"`. -/
theorem stream_chunks_concat :
    (∀ (fragments : List String) (s : SessionState),
      (run_stream_chunks fragments s).stream_response.getD "" =
        s.stream_response.getD "" ++ concat_fragments fragments) ∧
    (run_stream_chunks ["Hel", "lo, ", "world"] SessionState.empty).stream_response =
      Option.some "Hello, world" :=
  ⟨run_stream_chunks_getD, by decide⟩

/-- C5 (amended): when `OPENROUTER_API_KEY` is absent or empty, the console
entry point halts with the `ValueError` message before any user interaction
(its result does not depend on the subject); the Streamlit entry point
performs no such check and starts up normally. -/
theorem api_key_check_console_only (env : List (String × String)) (subject : String)
    (h : env_truthy (os_environ_get env "OPENROUTER_API_KEY") = false) :
    console_script env subject =
      Except.error "OPENROUTER_API_KEY environment variable is not set" ∧
    streamlit_main_startup env =
      Except.ok ["title: 🔍 Deep Search Agent",
                 "markdown: Powered by QuantaLogic Research Framework"] := by
  refine ⟨?_, rfl⟩
  simp [console_script, console_api_key_check, h]

/-- Witness for the C5 amended theorem at the empty environment. -/
theorem api_key_check_console_only_witness :
    console_script [] "any subject" =
      Except.error "OPENROUTER_API_KEY environment variable is not set" ∧
    streamlit_main_startup [] =
      Except.ok ["title: 🔍 Deep Search Agent",
                 "markdown: Powered by QuantaLogic Research Framework"] :=
  api_key_check_console_only [] "any subject" (by decide)

/-- C5 counterexample: with `OPENROUTER_API_KEY` absent, the Streamlit entry
point (`main` in `src/app.py`, which reads no environment variable) starts up
successfully instead of halting with a visible error. -/
theorem streamlit_startup_ignores_missing_key :
    os_environ_get [] "OPENROUTER_API_KEY" = Option.none ∧
    streamlit_main_startup [] =
      Except.ok ["title: 🔍 Deep Search Agent",
                 "markdown: Powered by QuantaLogic Research Framework"] :=
  ⟨rfl, rfl⟩

/-- C6: when the solve call raises, `deep_search` catches the exception at
the call site, renders the failed status and the visible error banner,
appends the `research_failed` entry to the event log, and returns
`(str(e), results_dir)` normally; later solver outcomes (`rest`) are never
consulted, so the solve step is not retried. -/
theorem deep_search_solve_error_caught_logged_no_retry
    (now results_dir e : String) (rest : List (Except String String))
    (s : SessionState) :
    deep_search_solve_phase now results_dir (Except.error e :: rest) s =
      Option.some ((e, results_dir),
        log_event now "research_failed" "error"
          (Option.some (.cons "error" (.str e) .nil)) s,
        ["status: ❌ Research failed",
         "error: An error occurred during research: " ++ e]) ∧
    (log_event now "research_failed" "error"
        (Option.some (.cons "error" (.str e) .nil)) s).event_log =
      s.event_log ++ [log_event_box "research_failed" "error"
        (Option.some (.cons "error" (.str e) .nil))] :=
  ⟨rfl, rfl⟩

/-- C7: for every subject that is non-empty after trimming, every output
directory and every iteration budget, the console task prompt contains all
three verbatim as substrings (the prompt builder is a pure function of these
inputs by construction). -/
theorem task_prompt_contains_inputs (subject out_dir : String) (n : Nat)
    (_h : py_strip subject ≠ "") :
    contains_sub (task_prompt subject out_dir n) subject ∧
    contains_sub (task_prompt subject out_dir n) out_dir ∧
    contains_sub (task_prompt subject out_dir n) (toString n) := by
  refine ⟨⟨task_prompt_part1,
      task_prompt_part2 ++ toString n ++ task_prompt_part3 ++ out_dir
        ++ task_prompt_part4, ?_⟩,
    ⟨task_prompt_part1 ++ subject ++ task_prompt_part2 ++ toString n
        ++ task_prompt_part3, task_prompt_part4, ?_⟩,
    ⟨task_prompt_part1 ++ subject ++ task_prompt_part2,
      task_prompt_part3 ++ out_dir ++ task_prompt_part4, ?_⟩⟩ <;>
    simp [task_prompt, String.append_assoc]

/-- Witness for the C7 theorem at a concrete subject, directory and budget. -/
theorem task_prompt_contains_inputs_witness :
    (py_strip "climate change" ≠ "") ∧
    (contains_sub (task_prompt "climate change" "./results" 10) "climate change" ∧
     contains_sub (task_prompt "climate change" "./results" 10) "./results" ∧
     contains_sub (task_prompt "climate change" "./results" 10) (toString 10)) :=
  ⟨by decide, task_prompt_contains_inputs "climate change" "./results" 10 (by decide)⟩

/-- C8 (modelled from the spec, the allocator is not under `src/`): the next
report name is the zero-padded successor of the maximum existing number —
`{report_001, report_002, report_005}` yields `report_006.md`, an empty
directory yields `report_001.md`. -/
theorem next_report_name_spec :
    next_report_name ["report_001.md", "report_002.md", "report_005.md"] =
      "report_006.md" ∧
    next_report_name [] = "report_001.md" ∧
    parse_report_num "report_005.md" = Option.some 5 :=
  ⟨by decide, by decide, by decide⟩

/-- C9: a `None` payload renders exactly like an empty one, and the body of
the box is then the single "no event data" line; and for every event name a
`None` payload takes every branch of `track_events` to completion, appending
one entry for a recognized name and none otherwise (never raising). -/
theorem format_event_box_missing_payload_safe :
    (∀ event : String,
      format_event_box_lines event Option.none =
        format_event_box_lines event (Option.some PyFields.nil)) ∧
    (∀ event : String,
      format_event_box_lines event Option.none =
        [box_top_border event Option.none,
         "║  " ++ ljust "ⓘ No event data" (box_content_width event Option.none) ++ "  ║",
         box_bottom_border event Option.none]) ∧
    (∀ (now event : String) (s : SessionState),
      (track_events now event Option.none s).event_log.length =
        s.event_log.length + (if recognized_track_event event then 1 else 0)) := by
  refine ⟨fun event => rfl, fun event => rfl, fun now event s => ?_⟩
  rw [track_events_eq_ite]
  by_cases h : recognized_track_event event <;> simp [h, log_event_event_log]

/-- C10: each `log_event` call appends exactly one entry to the full log and
one to the minimal log; after any call sequence the two logs have equal
length (the number of calls), corresponding entries come from the same call
in call order, and both contain the call's `message (event_type)` text
verbatim. -/
theorem log_event_appends_one_to_each_log :
    (∀ (now message event_type : String) (extra_data : Option PyFields)
        (s : SessionState),
      (log_event now message event_type extra_data s).event_log =
        s.event_log ++ [log_event_box message event_type extra_data] ∧
      (log_event now message event_type extra_data s).minimal_event_log =
        s.minimal_event_log ++ [log_event_minimal now message event_type]) ∧
    (∀ calls : List (String × String × String × Option PyFields),
      (run_log_events calls SessionState.empty).event_log =
        calls.map (fun c => log_event_box c.2.1 c.2.2.1 c.2.2.2) ∧
      (run_log_events calls SessionState.empty).minimal_event_log =
        calls.map (fun c => log_event_minimal c.1 c.2.1 c.2.2.1) ∧
      (run_log_events calls SessionState.empty).event_log.length = calls.length ∧
      (run_log_events calls SessionState.empty).minimal_event_log.length =
        calls.length) ∧
    (∀ (now message event_type : String) (extra_data : Option PyFields),
      contains_sub (log_event_box message event_type extra_data)
        (message ++ " (" ++ event_type ++ ")") ∧
      contains_sub (log_event_minimal now message event_type)
        (message ++ " (" ++ event_type ++ ")")) := by
  refine ⟨fun now m ty ed s => ⟨rfl, rfl⟩, fun calls => ?_,
    fun now m ty ed =>
      ⟨log_event_box_contains m ty ed, log_event_minimal_contains now m ty⟩⟩
  have h1 := run_log_events_event_log calls SessionState.empty
  have h2 := run_log_events_minimal_log calls SessionState.empty
  rw [show SessionState.empty.event_log = [] from rfl, List.nil_append] at h1
  rw [show SessionState.empty.minimal_event_log = [] from rfl, List.nil_append] at h2
  exact ⟨h1, h2, by rw [h1]; simp, by rw [h2]; simp⟩

end OpenDeepSearch
